import Mathlib

/-!
Shallow embedding of the backup synchronization agent `autoBackup.py` and a
verification of the specification's claims about it.

The embedding models, from the source:
* `sanitize_filename` (line 139-141),
* the remote-listing parse and new-file selection of `perform_backup`
  (lines 159-174),
* the download/promote loop of `perform_backup` (lines 189-222) together with
  its transfer-lock handling and cleanup (lines 181-251),
* `synchronize_directories` (lines 265-291),
* `copy_to_usb` (lines 316-350),
* the USB watcher `check_usb` (lines 353-375), and
* the per-server loop of `main` (lines 430-431).

Machine-level side effects (SSH traffic, byte contents of files, logging) are
abstracted: the filesystem is a record of filename lists, each remote download
or local copy either succeeds or fails according to an explicit oracle, and
every filesystem operation is recorded in an event trace so that ordering
properties (lock acquired before/after a filesystem touch) can be stated.
-/

namespace AutoBackup

/-- Python `str.isalnum` on a Unicode code point, modelled exactly on the
Basic Latin and Latin-1 Supplement blocks (code points below `0x100`): the
ASCII letters and digits, plus the Latin-1 alphanumeric characters
(`ª µ º ² ³ ¹ ¼ ½ ¾` and the accented letters `À`..`ÿ` other than `×` and
`÷`).  Code points at or above `0x100` are modelled as alphanumeric; nothing
proved in this file depends on that region. -/
def pyIsAlnumCode (v : Nat) : Bool :=
  if v < 0x80 then
    (0x30 ≤ v && v ≤ 0x39) || (0x41 ≤ v && v ≤ 0x5A) || (0x61 ≤ v && v ≤ 0x7A)
  else if v < 0x100 then
    v == 0xAA || v == 0xB5 || v == 0xBA || v == 0xB2 || v == 0xB3 || v == 0xB9 ||
    v == 0xBC || v == 0xBD || v == 0xBE ||
    (0xC0 ≤ v && v ≤ 0xFF && !(v == 0xD7) && !(v == 0xF7))
  else true

/-- `c.isalnum()` for a character `c`; Python character classification depends
only on the code point. -/
def pyIsAlnum (c : Char) : Bool :=
  pyIsAlnumCode c.toNat

/-- The keep-test of `sanitize_filename` (line 141):
`c.isalnum() or c in (' ', '.', '_', '-')`.  Membership in the tuple is
equality of characters, i.e. of code points (`0x20 0x2E 0x5F 0x2D`). -/
def keepCode (v : Nat) : Bool :=
  pyIsAlnumCode v || v == 0x20 || v == 0x2E || v == 0x5F || v == 0x2D

/-- `sanitize_filename` (lines 139-141): keep each character that passes the
keep-test, replace every other character by `'_'`. -/
def sanitize_filename (filename : String) : String :=
  String.mk (filename.data.map (fun c => if keepCode c.toNat then c else '_'))

/-- The character class `[A-Za-z0-9 ._-]` named by the specification, on a
code point. -/
def specAllowedCode (v : Nat) : Bool :=
  (0x41 ≤ v && v ≤ 0x5A) || (0x61 ≤ v && v ≤ 0x7A) || (0x30 ≤ v && v ≤ 0x39) ||
  v == 0x20 || v == 0x2E || v == 0x5F || v == 0x2D

/-- Modelled from the spec: the sanitization rule as the specification words
it — "replace any character outside `[A-Za-z0-9 ._-]` with `_`".  This is the
second definition of a refinement comparison; `sanitize_filename` above is the
one translated from the source. -/
def sanitize_spec (filename : String) : String :=
  String.mk (filename.data.map (fun c => if specAllowedCode c.toNat then c else '_'))

/-- The string consisting of the single character `é` (U+00E9), a character
outside `[A-Za-z0-9 ._-]` for which Python's `str.isalnum` returns `True`. -/
def eAcute : String :=
  String.mk [Char.ofNat 0xE9]

/-! ## Remote listing parse and new-file selection (`perform_backup`, lines 159-174) -/

/-- Whitespace as recognised by Python's `str.split()` with no argument,
restricted to the ASCII whitespace characters that can occur in `ls -l`
output. -/
def pyIsSpace (c : Char) : Bool :=
  c == ' ' || c == '\t' || c == '\n' || c == '\r' ||
  c == Char.ofNat 0x0B || c == Char.ofNat 0x0C

/-- Worker for `pySplit`: split a character list on runs of whitespace,
accumulating the current (reversed) token. -/
def splitWsGo (cur : List Char) : List Char → List (List Char)
  | [] => if cur.isEmpty then [] else [cur.reverse]
  | c :: rest =>
    if pyIsSpace c then
      if cur.isEmpty then splitWsGo [] rest
      else cur.reverse :: splitWsGo [] rest
    else splitWsGo (c :: cur) rest

/-- Python `line.split()` (line 167): split on runs of whitespace, never
producing empty tokens. -/
def pySplit (line : String) : List String :=
  (splitWsGo [] line.data).map (fun cs => String.mk cs)

/-- Value of a list of decimal digit characters. -/
def digitsVal (ds : List Char) : Nat :=
  ds.foldl (fun n c => n * 10 + (c.toNat - 0x30)) 0

/-- Python `int(s)` (line 172) on a whitespace-free field, as an `Option`:
`none` models the `ValueError` that `int` raises on a non-numeric string.
An optional leading sign followed by at least one decimal digit parses;
anything else raises. -/
def pyParseInt (s : String) : Option Int :=
  match s.data with
  | '-' :: rest =>
    if !rest.isEmpty && rest.all (fun c => 0x30 ≤ c.toNat && c.toNat ≤ 0x39) then
      some (-(digitsVal rest : Int))
    else none
  | ds =>
    if !ds.isEmpty && ds.all (fun c => 0x30 ≤ c.toNat && c.toNat ≤ 0x39) then
      some ((digitsVal ds : Int))
    else none

/-- `parts[-1]`, defined when the list is nonempty. -/
def lastTok (parts : List String) : String :=
  parts.getLastD ""

/-- `parts[-2]`, defined when the list has at least two elements. -/
def secondLastTok (parts : List String) : String :=
  parts.getD (parts.length - 2) ""

deriving instance DecidableEq for Except

/-- The new-file selection loop of `perform_backup` (lines 165-173): for each
listing line, split on whitespace; lines with fewer than 6 fields are skipped;
otherwise the filename is the last field, and if its sanitized form is not
among the local files the pair `(filename, int(parts[-2]))` is appended.  A
non-numeric `parts[-2]` makes `int` raise a `ValueError`, which is not caught
anywhere in `perform_backup`; the `.error` result models that exception
(discarding the whole selection). -/
def buildNewFiles (localFiles : List String) : List String → Except Unit (List (String × Int))
  | [] => .ok []
  | line :: rest =>
    if 6 ≤ (pySplit line).length then
      if sanitize_filename (lastTok (pySplit line)) ∈ localFiles then
        buildNewFiles localFiles rest
      else
        match pyParseInt (secondLastTok (pySplit line)) with
        | none => .error ()
        | some mtime =>
          match buildNewFiles localFiles rest with
          | .error e => .error e
          | .ok l => .ok ((lastTok (pySplit line), mtime) :: l)
    else buildNewFiles localFiles rest

/-- One entry of the remote source directory as printed by
`ls -lt --time-style=+%s` (line 159): a filename plus the size and epoch
modification time fields, kept as the strings `ls` prints. -/
structure RemoteEntry where
  filename : String
  sizeStr : String
  mtimeStr : String
deriving DecidableEq, Repr

/-- The `ls -l` line for one entry.  The permission, link count, owner and
group fields vary per file but are always single whitespace-free tokens; the
model fixes representative values for them. -/
def renderLsLine (e : RemoteEntry) : String :=
  "-rw-r--r-- 1 user group " ++ e.sizeStr ++ " " ++ e.mtimeStr ++ " " ++ e.filename

/-- The full output of `ls -lt --time-style=+%s` on the remote source path:
a `total` header line followed by one line per entry (newest first; the model
takes the entries in the given order). -/
def lsListing (entries : List RemoteEntry) : List String :=
  "total 0" :: entries.map renderLsLine

/-! ## Filesystem state, traces, and the download loop (`perform_backup`, lines 144-251) -/

/-- Observable events of a transfer operation, in program order.
`fsTouch` stands for any local filesystem operation other than a transfer
proper (directory creation, directory listing, opening/renaming/removing a
file); `download`/`copyFile` are the completed per-file transfers; `lockSet`
and `lockClear` are the two assignments to the global `active_transfer`
flag. -/
inductive Event
  | fsTouch
  | lockSet
  | lockClear
  | download (name : String)
  | copyFile (name : String)
deriving DecidableEq, Repr

/-- Per-file fate of a remote download, decided by an oracle: it can succeed,
fail at the `sftp.stat` call (before the staging file is created), fail while
streaming (leaving a partial file in staging), or be hit by a
`KeyboardInterrupt` while streaming. -/
inductive FileOutcome
  | ok
  | failStat
  | failStream
  | interrupt
deriving DecidableEq, Repr

/-- The value `perform_backup` returns to its caller: `True` (line 231),
`None` (the bare `return` of line 179), `False` (lines 150, 236, 241), or an
exception propagating out of the function uncaught (`raised`). -/
inductive PyRet
  | pyTrue
  | pyNone
  | pyFalse
  | raised
deriving DecidableEq, Repr

/-- The backup store: the primary root (filename and modification time per
file), the staging subdirectory `temp`, and the secondary roots (filename
lists). -/
structure Sys where
  primary : List (String × Int)
  temp : List String
  secondaries : List (List String)
deriving DecidableEq, Repr

/-- The download loop of `perform_backup` (lines 189-222), folded over the
selected `new_files` list.  Per entry: sanitize the name; skip when the name
already exists in staging or in the primary root (lines 195-198); otherwise
consult the oracle: on success the file is streamed to staging, renamed into
the primary root and given the remote mtime (net effect: the primary root
gains the pair); a failure is caught by the per-file handler of line 219,
counted and the loop continues; a `KeyboardInterrupt` is *not* caught by
`except Exception` and aborts the loop (flag `true` in the result), leaving
the partial file in staging.  Returns the new store, the number of per-file
errors logged, the events emitted, and whether the loop was interrupted. -/
def runFiles (outcome : String → FileOutcome) (s : Sys) :
    List (String × Int) → Sys × Nat × List Event × Bool
  | [] => (s, 0, [], false)
  | e :: rest =>
    if sanitize_filename e.1 ∈ s.temp ∨
        sanitize_filename e.1 ∈ s.primary.map Prod.fst then
      runFiles outcome s rest
    else
      match outcome (sanitize_filename e.1) with
      | .interrupt =>
        ({ s with temp := s.temp ++ [sanitize_filename e.1] }, 0, [.fsTouch], true)
      | .failStat =>
        let r := runFiles outcome s rest
        (r.1, r.2.1 + 1, r.2.2.1, r.2.2.2)
      | .failStream =>
        let r := runFiles outcome { s with temp := s.temp ++ [sanitize_filename e.1] } rest
        (r.1, r.2.1 + 1, .fsTouch :: r.2.2.1, r.2.2.2)
      | .ok =>
        let r := runFiles outcome
          { s with primary := s.primary ++ [(sanitize_filename e.1, e.2)] } rest
        (r.1, r.2.1, .fsTouch :: .download (sanitize_filename e.1) :: r.2.2.1, r.2.2.2)

/-- Worker of `synchronize_directories` for one secondary root (lines
272-291): copy each missing file in order; a per-file copy failure enters the
`except` block of line 288, whose `send_email` call (line 290) passes two
arguments to a three-parameter function and therefore raises a `TypeError`
that propagates, aborting this root and everything after it (`false` in the
result). -/
def syncRootGo (copyFails : String → Bool) (sec : List String) :
    List String → List String × Bool × List Event
  | [] => (sec, true, [])
  | f :: rest =>
    if copyFails f then (sec, false, [])
    else
      let r := syncRootGo copyFails (sec ++ [f]) rest
      (r.1, r.2.1, .copyFile f :: r.2.2)

/-- One secondary root of `synchronize_directories` (lines 268-271): ensure
the root exists, list it, and copy the files of the primary root missing from
it.  `files_to_copy` is a Python set difference whose iteration order is
unspecified; the model iterates in primary-listing order. -/
def syncRoot (copyFails : String → Bool) (primaryFiles sec : List String) :
    List String × Bool × List Event :=
  syncRootGo copyFails sec (primaryFiles.filter (fun f => decide (f ∉ sec)))

/-- `synchronize_directories` (lines 265-291) over the list of secondary
roots, with a per-root-and-file failure oracle.  The uncaught `TypeError` of
the per-file handler (see `syncRootGo`) aborts the remaining roots as well. -/
def synchronize_directories (copyFails : Nat → String → Bool)
    (primaryFiles : List String) (i : Nat) :
    List (List String) → List (List String) × Bool × List Event
  | [] => ([], true, [])
  | sec :: rest =>
    let r := syncRoot (copyFails i) primaryFiles sec
    if r.2.1 then
      let rr := synchronize_directories copyFails primaryFiles (i + 1) rest
      (r.1 :: rr.1, rr.2.1, .fsTouch :: r.2.2 ++ rr.2.2)
    else (r.1 :: rest, false, .fsTouch :: r.2.2)

/-- Result of one `perform_backup` call: the returned value, the store, the
number of per-file errors logged, and the event trace of the call. -/
structure PullRes where
  ret : PyRet
  sys : Sys
  errors : Nat
  trace : List Event
deriving DecidableEq, Repr

/-- `perform_backup` (lines 144-251).  In program order: a failed SSH
connection returns `False` before any local filesystem access (lines
148-150); then `create_backup_directories` and the listing of the primary
root touch the filesystem (lines 155, 163), the remote listing is parsed and
the new files selected (lines 159-174; an unparseable mtime field raises a
`ValueError` that nothing in `perform_backup` catches, modelled by `raised`);
an empty selection returns `None` (line 179); otherwise the staging directory
is created (line 182), `active_transfer` is set (lines 185-187), the download
loop runs, and — unless a `KeyboardInterrupt` aborted the loop (caught at
line 233, returning `False`) — staging is cleaned up (line 224) and the
secondary roots are synchronized (line 226), whose uncaught `TypeError` on a
copy failure is caught by the generic handler of line 237 (returning
`False`); on full success the function returns `True` (line 231).  The
`finally` of line 242 clears `active_transfer` on every one of those exit
paths. -/
def perform_backup_model (connectOk : Bool) (lines : List String)
    (outcome : String → FileOutcome) (copyFails : Nat → String → Bool)
    (s : Sys) : PullRes :=
  if !connectOk then ⟨.pyFalse, s, 0, []⟩
  else
    match buildNewFiles (s.primary.map Prod.fst) lines with
    | .error _ => ⟨.raised, s, 0, [.fsTouch, .fsTouch]⟩
    | .ok newFiles =>
      if newFiles.isEmpty then ⟨.pyNone, s, 0, [.fsTouch, .fsTouch]⟩
      else
        let r := runFiles outcome s newFiles
        if r.2.2.2 then
          ⟨.pyFalse, r.1, r.2.1,
            [.fsTouch, .fsTouch, .fsTouch, .lockSet] ++ r.2.2.1 ++ [.lockClear]⟩
        else
          let s2 : Sys := { r.1 with temp := [] }
          let sr := synchronize_directories copyFails (s2.primary.map Prod.fst)
            0 s2.secondaries
          ⟨if sr.2.1 then .pyTrue else .pyFalse,
            { s2 with secondaries := sr.1 }, r.2.1,
            [.fsTouch, .fsTouch, .fsTouch, .lockSet] ++ r.2.2.1 ++ [.fsTouch] ++
              sr.2.2 ++ [.lockClear]⟩

/-- Number of completed downloads recorded in a trace. -/
def downloadCount : List Event → Nat
  | [] => 0
  | .download _ :: rest => downloadCount rest + 1
  | _ :: rest => downloadCount rest

/-- Oracle under which every download succeeds. -/
def allOk : String → FileOutcome := fun _ => .ok

/-- Oracle under which no mirror copy fails. -/
def noCopyFail : Nat → String → Bool := fun _ _ => false

/-- The store of scenario A before the first pull: empty primary root, empty
staging, no secondary roots. -/
def sys0 : Sys := ⟨[], [], []⟩

/-- Scenario A's remote listing, with the space in `b log.txt` replaced by an
underscore (see `c3_counterexample` for why the original listing cannot
work): `a.txt` of size 100 at mtime 1700000002 and `b_log.txt` of size 200 at
mtime 1700000001. -/
def linesGood : List String :=
  lsListing [⟨"a.txt", "100", "1700000002"⟩, ⟨"b_log.txt", "200", "1700000001"⟩]

/-- The first pull of scenario A (amended). -/
def run1 : PullRes := perform_backup_model true linesGood allOk noCopyFail sys0

/-- The second pull of scenario A (amended), over the store the first pull
produced. -/
def run2 : PullRes := perform_backup_model true linesGood allOk noCopyFail run1.sys

/-- Scenario A's remote listing exactly as the claim states it, filenames
`a.txt` and `b log.txt`. -/
def linesScenarioA : List String :=
  lsListing [⟨"a.txt", "100", "1700000002"⟩, ⟨"b log.txt", "200", "1700000001"⟩]

/-- The pull over scenario A's literal listing. -/
def runScenarioA : PullRes :=
  perform_backup_model true linesScenarioA allOk noCopyFail sys0

/-! ## C5: per-file failures do not abort the batch -/

/-- Five fresh remote entries for scenario C. -/
def fiveEntries : List RemoteEntry :=
  [⟨"f1.bin", "10", "1005"⟩, ⟨"f2.bin", "10", "1004"⟩, ⟨"f3.bin", "10", "1003"⟩,
   ⟨"f4.bin", "10", "1002"⟩, ⟨"f5.bin", "10", "1001"⟩]

/-- Oracle forcing a streaming error on the third of the five files. -/
def failThird : String → FileOutcome :=
  fun nm => if nm = "f3.bin" then .failStream else .ok

/-- The pull of scenario C: five new files, the third one's download fails. -/
def run5 : PullRes :=
  perform_backup_model true (lsListing fiveEntries) failThird noCopyFail sys0

/-! ## `copy_to_usb` (lines 316-350) and the transfer lock trace -/

/-- Result of one `copy_to_usb` call: the contents of the chosen target
folder and the event trace. -/
structure UsbRes where
  dest : List String
  trace : List Event
deriving DecidableEq, Repr

/-- The per-file loop of `copy_to_usb` (lines 327-347): skip files already
present at the destination; otherwise copy, where a failure is caught by the
per-file handler of line 346 (which only logs — the loop continues).  A
failing file is modelled as failing at `os.path.getsize`, before the
destination file is created. -/
def usbLoop (copyFails : String → Bool) (dest : List String) :
    List String → List String × List Event
  | [] => (dest, [])
  | f :: rest =>
    if f ∈ dest then usbLoop copyFails dest rest
    else if copyFails f then usbLoop copyFails dest rest
    else
      let r := usbLoop copyFails (dest ++ [f]) rest
      (r.1, .copyFile f :: r.2)

/-- `copy_to_usb` (lines 316-350).  `select_backup_folder` runs first: when
the user selects nothing the function returns without transferring
(line 318-320); when the user asks for a new folder, `os.makedirs` runs
(line 312) — a filesystem touch before the transfer flag is set.  Then the
function waits for idleness, sets `active_transfer` (lines 322-325), lists
the backup path (line 327, a touch under the lock), runs the per-file loop,
and clears the flag in the `finally` of line 348. -/
def copy_to_usb_model (folderSelected createFolder : Bool)
    (copyFails : String → Bool) (backupFiles dest : List String) : UsbRes :=
  if !folderSelected then ⟨dest, []⟩
  else
    let pre : List Event := if createFolder then [.fsTouch] else []
    let r := usbLoop copyFails dest backupFiles
    ⟨r.1, pre ++ [.lockSet, .fsTouch] ++ r.2 ++ [.lockClear]⟩

/-- State of the `active_transfer` flag after a trace of events, starting
from a given value. -/
def finalFlag (f : Bool) : List Event → Bool
  | [] => f
  | .lockSet :: rest => finalFlag true rest
  | .lockClear :: rest => finalFlag false rest
  | .fsTouch :: rest => finalFlag f rest
  | .download _ :: rest => finalFlag f rest
  | .copyFile _ :: rest => finalFlag f rest

/-- Whether every transfer event (`download` or `copyFile`) of a trace occurs
while the `active_transfer` flag is set, starting from a given flag value. -/
def flagHeldDuringTransfers (f : Bool) : List Event → Bool
  | [] => true
  | .lockSet :: rest => flagHeldDuringTransfers true rest
  | .lockClear :: rest => flagHeldDuringTransfers false rest
  | .fsTouch :: rest => flagHeldDuringTransfers f rest
  | .download _ :: rest => f && flagHeldDuringTransfers f rest
  | .copyFile _ :: rest => f && flagHeldDuringTransfers f rest

/-- Whether no filesystem touch occurs before the first `lockSet` of a
trace (the ordering the claim asserts). -/
def noFsBeforeLock : List Event → Bool
  | [] => true
  | .lockSet :: _ => true
  | .fsTouch :: _ => false
  | _ :: rest => noFsBeforeLock rest

/-- Whether a trace contains no `lockSet`/`lockClear` event. -/
def lockFree : List Event → Bool
  | [] => true
  | .lockSet :: _ => false
  | .lockClear :: _ => false
  | _ :: rest => lockFree rest

/-- The pull used to refute the claimed set-flag-before-filesystem ordering:
one fresh remote file, everything succeeding. -/
def c6run : PullRes :=
  perform_backup_model true (lsListing [⟨"x.bin", "10", "1000"⟩]) allOk noCopyFail sys0

/-! ## C4: a copy failure during mirror synchronization -/

/-- Oracle failing exactly the copy of `a.txt` into secondary root 0. -/
def failFirstCopy : Nat → String → Bool :=
  fun i f => i == 0 && f == "a.txt"

/-! ## C7: the removable-media watcher (`check_usb`, lines 353-375) -/

/-- The value of the global `usb_prompted`: the module initializes it to the
boolean `False` (line 22), while `check_usb` and `safe_eject_usb` use it as a
set (`in`, `.add`, `.clear` — lines 370, 372, 410). -/
inductive UsbPrompted
  | pyBool (b : Bool)
  | pySet (s : List String)
deriving DecidableEq, Repr

/-- Python `x in usb_prompted`: on a boolean this raises
`TypeError: argument of type 'bool' is not iterable`. -/
def promptedMem : UsbPrompted → String → Except Unit Bool
  | .pyBool _, _ => .error ()
  | .pySet s, x => .ok (x ∈ s)

/-- Python `usb_prompted.add(x)`: on a boolean this raises an
`AttributeError`. -/
def promptedAdd : UsbPrompted → String → Except Unit UsbPrompted
  | .pyBool _, _ => .error ()
  | .pySet s, x => .ok (.pySet (s ++ [x]))

/-- State of one `check_usb` watcher thread: the `previous_usb` local, the
global `usb_prompted`, and the requests put on `usb_queue` so far. -/
structure WatcherState where
  previous_usb : Option String
  prompted : UsbPrompted
  queue : List String
deriving DecidableEq, Repr

/-- One poll tick of `check_usb` (lines 356-375): `detected` is the removable
volume the `wmic` enumeration finds, if any.  No volume resets
`previous_usb`; a volume differing from `previous_usb` is a new attach, and
if it is not in `usb_prompted` a request is enqueued and it is added — both
of which raise on the boolean `usb_prompted`, killing the watcher thread
(modelled by `.error`). -/
def check_usb_tick (st : WatcherState) (detected : Option String) :
    Except Unit WatcherState :=
  match detected with
  | none => .ok { st with previous_usb := none }
  | some cur =>
    if some cur ≠ st.previous_usb then
      match promptedMem st.prompted cur with
      | .error e => .error e
      | .ok true => .ok { st with previous_usb := some cur }
      | .ok false =>
        match promptedAdd st.prompted cur with
        | .error e => .error e
        | .ok p' =>
          .ok { previous_usb := some cur, prompted := p', queue := st.queue ++ [cur] }
    else .ok st

/-- A sequence of poll ticks; a raised exception kills the watcher thread,
freezing its state (the flag records the crash). -/
def run_ticks (st : WatcherState) : List (Option String) → WatcherState × Bool
  | [] => (st, false)
  | d :: rest =>
    match check_usb_tick st d with
    | .error _ => (st, true)
    | .ok st' => run_ticks st' rest

/-- The watcher state at thread start: `previous_usb = None` (line 355),
`usb_prompted = False` (line 22), empty queue. -/
def initialWatcherState : WatcherState :=
  ⟨none, .pyBool false, []⟩

/-! ## C9: reported outcomes and the per-server loop of `main` -/

/-- The inputs of one server's pull. -/
structure ServerInput where
  connectOk : Bool
  lines : List String
  outcome : String → FileOutcome
  copyFails : Nat → String → Bool
  sys : Sys

/-- One server's pull over its inputs. -/
def runServer (r : ServerInput) : PullRes :=
  perform_backup_model r.connectOk r.lines r.outcome r.copyFails r.sys

/-- The initial per-server loop of `main` (lines 430-431):
`for config in configs: perform_backup(config)`.  A `KeyboardInterrupt`
during a pull is caught *inside* `perform_backup` (line 233), so the loop
continues with the next server; only an exception that `perform_backup` does
not catch (the `ValueError` of the listing parse) propagates and kills the
loop. -/
def main_first_pass : List ServerInput → List PullRes
  | [] => []
  | r :: rest =>
    if (runServer r).ret = .raised then [runServer r]
    else runServer r :: main_first_pass rest

/-- Oracle interrupting the first download (`KeyboardInterrupt`). -/
def interruptAll : String → FileOutcome := fun _ => .interrupt

/-- A server whose pull is interrupted during its first download. -/
def serverIntr : ServerInput :=
  ⟨true, lsListing [⟨"s1.bin", "10", "1000"⟩], interruptAll, noCopyFail, sys0⟩

/-- A server whose pull succeeds, downloading one file. -/
def serverOk : ServerInput :=
  ⟨true, lsListing [⟨"s2.bin", "10", "1000"⟩], allOk, noCopyFail, sys0⟩

/-- A server whose SSH connection fails. -/
def serverFail : ServerInput :=
  ⟨false, [], allOk, noCopyFail, sys0⟩

/-! ## Sanity checks on the character model -/

example : sanitize_filename "a b.txt" = "a b.txt" := by decide

example : sanitize_filename "a?b:c" = "a_b_c" := by decide

example : sanitize_filename eAcute = eAcute := by decide

example : sanitize_spec eAcute = "_" := by decide

/-- On ASCII code points the source's keep-test agrees with the
specification's character class `[A-Za-z0-9 ._-]`. -/
theorem keepCode_eq_specAllowedCode_of_ascii :
    ∀ v : Fin 128, keepCode v.val = specAllowedCode v.val := by
  decide

/-- C1: the specification's sanitization rule, stated over the two
definitions: `sanitize_filename` replaces exactly the characters outside
`[A-Za-z0-9 ._-]` with `'_'` on ASCII strings.  (The unrestricted rule is
false: non-ASCII alphanumerics are kept, see the counterexample.) -/
theorem c1_sanitize_matches_spec_on_ascii (s : String)
    (h : ∀ c ∈ s.data, c.toNat < 128) :
    sanitize_filename s = sanitize_spec s := by
  unfold sanitize_filename sanitize_spec
  congr 1
  apply List.map_congr_left
  intro c hc
  have hv : c.toNat < 128 := h c hc
  have := keepCode_eq_specAllowedCode_of_ascii ⟨c.toNat, hv⟩
  simp only at this
  rw [this]

/-- C1 witness: the theorem applied at the concrete ASCII input
`"My File(1).tar.gz"`. -/
theorem c1_sanitize_matches_spec_on_ascii_witness :
    (∀ c ∈ ("My File(1).tar.gz" : String).data, c.toNat < 128) ∧
      sanitize_filename "My File(1).tar.gz" = sanitize_spec "My File(1).tar.gz" :=
  ⟨by decide, c1_sanitize_matches_spec_on_ascii "My File(1).tar.gz" (by decide)⟩

/-- C1 counterexample: on the input `"é"` the code keeps the character
(Python `isalnum` is Unicode-aware and accepts it) while the claimed rule
replaces every character outside `[A-Za-z0-9 ._-]` with `'_'`. -/
theorem c1_counterexample :
    sanitize_filename eAcute ≠ sanitize_spec eAcute ∧
      sanitize_filename eAcute = eAcute ∧ sanitize_spec eAcute = "_" := by
  refine ⟨?_, by decide, by decide⟩
  decide

/-- C10: `sanitize_filename` maps characters independently, hence preserves
length; the empty string, `"."` and `".."` are returned unchanged. -/
theorem c10_sanitize_length_and_dots :
    (∀ s : String, (sanitize_filename s).length = s.length) ∧
      sanitize_filename "" = "" ∧ sanitize_filename "." = "." ∧
      sanitize_filename ".." = ".." := by
  refine ⟨?_, by decide, by decide, by decide⟩
  intro s
  show (s.data.map _).length = s.data.length
  exact List.length_map _ _

example : pySplit "total 0" = ["total", "0"] := by decide

example : pySplit (renderLsLine ⟨"a.txt", "100", "17"⟩) =
    ["-rw-r--r--", "1", "user", "group", "100", "17", "a.txt"] := by decide

example : buildNewFiles [] (lsListing [⟨"a.txt", "100", "17"⟩]) =
    .ok [("a.txt", 17)] := by decide

example : buildNewFiles ["a.txt"] (lsListing [⟨"a.txt", "100", "17"⟩]) =
    .ok [] := by decide

/-- C2 counterexample: for the remote listing holding the single entry
`b log.txt` (size 200, mtime 5) and no local files, the claim says the pull
selects exactly the sanitized name `"b log.txt"`; in the code the line splits
into 8 fields, the filename becomes the last field `"log.txt"`, and
`int("b")` raises a `ValueError`, so the selection aborts with an exception
and selects nothing. -/
theorem c2_counterexample :
    buildNewFiles [] (lsListing [⟨"b log.txt", "200", "5"⟩]) = .error () ∧
      (∀ sel : List (String × Int),
        buildNewFiles [] (lsListing [⟨"b log.txt", "200", "5"⟩]) ≠ .ok sel) ∧
      sanitize_filename "b log.txt" = "b log.txt" := by
  refine ⟨by decide, ?_, by decide⟩
  intro sel h
  rw [show buildNewFiles [] (lsListing [⟨"b log.txt", "200", "5"⟩]) = .error () from by decide] at h
  exact Except.noConfusion h

/-- C2: for every remote listing (as the list of its raw lines) in which every
parseable line (at least 6 whitespace-separated fields) that is going to be
selected carries an integer second-to-last field, the selection succeeds and
the set of sanitized selected filenames is exactly the set of sanitized
filenames of the parseable lines minus the local files; lines with fewer than
6 fields (such as the `total` header) are skipped silently.  The integer-field
proviso is the amendment: without it `int(parts[-2])` raises and the whole
selection aborts (see the counterexample, where a filename containing a space
produces exactly that situation). -/
theorem c2_amended_selection_set (lines L : List String)
    (h : ∀ l ∈ lines, 6 ≤ (pySplit l).length →
      sanitize_filename (lastTok (pySplit l)) ∉ L →
      (pyParseInt (secondLastTok (pySplit l))).isSome) :
    ∃ sel, buildNewFiles L lines = .ok sel ∧
      (sel.map (fun p => sanitize_filename p.1)).toFinset =
        ((lines.filter (fun l => decide (6 ≤ (pySplit l).length))).map
          (fun l => sanitize_filename (lastTok (pySplit l)))).toFinset \ L.toFinset := by
  induction lines with
  | nil => exact ⟨[], rfl, by simp⟩
  | cons line rest ih =>
    obtain ⟨sel, hsel, hset⟩ := ih (fun l hl => h l (List.mem_cons_of_mem _ hl))
    by_cases h6 : 6 ≤ (pySplit line).length
    · by_cases hL : sanitize_filename (lastTok (pySplit line)) ∈ L
      · refine ⟨sel, ?_, ?_⟩
        · simp only [buildNewFiles]
          rw [if_pos h6, if_pos hL]
          exact hsel
        · rw [hset, List.filter_cons, if_pos (by simpa using h6)]
          simp only [List.map_cons, List.toFinset_cons]
          rw [Finset.insert_sdiff_of_mem _ (List.mem_toFinset.mpr hL)]
      · obtain ⟨m, hm⟩ := Option.isSome_iff_exists.mp
          (h line (List.mem_cons_self _ _) h6 hL)
        refine ⟨(lastTok (pySplit line), m) :: sel, ?_, ?_⟩
        · simp only [buildNewFiles]
          rw [if_pos h6, if_neg hL, hm, hsel]
        · rw [List.filter_cons, if_pos (by simpa using h6)]
          simp only [List.map_cons, List.toFinset_cons]
          rw [Finset.insert_sdiff_of_not_mem _ (fun hc => hL (List.mem_toFinset.mp hc)),
            hset]
    · refine ⟨sel, ?_, ?_⟩
      · simp only [buildNewFiles]
        rw [if_neg h6]
        exact hsel
      · rw [hset, List.filter_cons, if_neg (by simpa using h6)]

/-- C2 witness: the theorem applied to a concrete listing holding the `total`
header, one fresh entry, one entry already present locally, and a junk line
with fewer than 6 fields. -/
theorem c2_amended_selection_set_witness :
    (∀ l ∈ ["total 0", renderLsLine ⟨"db.sql", "100", "1700000002"⟩,
        renderLsLine ⟨"old.sql", "50", "1700000001"⟩, "junk line"],
      6 ≤ (pySplit l).length →
      sanitize_filename (lastTok (pySplit l)) ∉ ["old.sql"] →
      (pyParseInt (secondLastTok (pySplit l))).isSome) ∧
    ∃ sel, buildNewFiles ["old.sql"]
        ["total 0", renderLsLine ⟨"db.sql", "100", "1700000002"⟩,
         renderLsLine ⟨"old.sql", "50", "1700000001"⟩, "junk line"] = .ok sel ∧
      (sel.map (fun p => sanitize_filename p.1)).toFinset =
        ((["total 0", renderLsLine ⟨"db.sql", "100", "1700000002"⟩,
           renderLsLine ⟨"old.sql", "50", "1700000001"⟩,
           "junk line"].filter (fun l => decide (6 ≤ (pySplit l).length))).map
          (fun l => sanitize_filename (lastTok (pySplit l)))).toFinset \
          (["old.sql"] : List String).toFinset :=
  ⟨by decide, c2_amended_selection_set _ _ (by decide)⟩

/-- C3 counterexample: on the literal scenario — remote listing
`[("a.txt", 100, t1), ("b log.txt", 200, t2)]`, empty primary root — the line
for `b log.txt` splits into 8 fields, so `int(parts[-2])` is `int("b")`,
which raises an uncaught `ValueError`: the pull dies before downloading
anything, and neither `a.txt` nor `b_log.txt` (nor any file) appears in the
primary root, contradicting the claimed outcome. -/
theorem c3_counterexample :
    runScenarioA.ret = .raised ∧ runScenarioA.sys.primary = [] := by
  constructor
  · decide
  · decide

/-- C3: the end-to-end scenario holds once the remote filenames are free of
spaces (amendment forced by the counterexample: `b log.txt` is replaced by
`b_log.txt` in the listing).  One pull over an empty primary root produces
exactly the local files `a.txt` and `b_log.txt` with modification times
1700000002 and 1700000001, and a second pull over the same listing returns
the no-new-files outcome, changes nothing, and performs zero downloads. -/
theorem c3_amended_scenario_a :
    run1.ret = .pyTrue ∧
      run1.sys.primary = [("a.txt", 1700000002), ("b_log.txt", 1700000001)] ∧
      downloadCount run1.trace = 2 ∧
      run2.ret = .pyNone ∧
      run2.sys.primary = run1.sys.primary ∧
      downloadCount run2.trace = 0 := by
  refine ⟨?_, ?_, ?_, ?_, ?_, ?_⟩ <;> decide

/-- C5: a per-file failure is caught at the file boundary.  First, for every
oracle that never raises `KeyboardInterrupt`, the download loop runs to the
very end of the list (it is never aborted by a failure).  Second, scenario C
concretely: with a forced error on the third of five new files, the pull
still completes with `True`, exactly one error is logged, and the other four
files are present in the primary root while the third is not. -/
theorem c5_per_file_failure_contained :
    (∀ (outcome : String → FileOutcome) (s : Sys) (files : List (String × Int)),
      (∀ nm, outcome nm ≠ .interrupt) →
      (runFiles outcome s files).2.2.2 = false) ∧
    run5.ret = .pyTrue ∧
      run5.sys.primary.map Prod.fst = ["f1.bin", "f2.bin", "f4.bin", "f5.bin"] ∧
      run5.errors = 1 ∧
      "f3.bin" ∉ run5.sys.primary.map Prod.fst := by
  constructor
  · intro outcome s files h
    induction files generalizing s with
    | nil => rfl
    | cons e rest ih =>
      rw [runFiles]
      by_cases hmem : sanitize_filename e.1 ∈ s.temp ∨
          sanitize_filename e.1 ∈ s.primary.map Prod.fst
      · rw [if_pos hmem]
        exact ih _
      · rw [if_neg hmem]
        rcases ho : outcome (sanitize_filename e.1) with _ | _ | _ | _
        · simpa using ih _
        · simpa using ih _
        · simpa using ih _
        · exact absurd ho (h _)
  · refine ⟨?_, ?_, ?_, ?_⟩ <;> decide

/-- C5 witness: the general conjunct applied to the all-successes oracle on a
concrete file list. -/
theorem c5_per_file_failure_contained_witness :
    (∀ nm, allOk nm ≠ FileOutcome.interrupt) ∧
      (runFiles allOk sys0 [("x.bin", 7)]).2.2.2 = false :=
  ⟨fun _ h => FileOutcome.noConfusion h,
    c5_per_file_failure_contained.1 allOk sys0 [("x.bin", 7)]
      (fun _ h => FileOutcome.noConfusion h)⟩

/-! ## C8: mirror convergence after a successful pull -/

/-- If one secondary root is processed without a copy failure, it ends as the
original contents followed by the processed to-copy list. -/
theorem syncRootGo_ok_append (copyFails : String → Bool) (todo : List String) :
    ∀ sec : List String, (syncRootGo copyFails sec todo).2.1 = true →
      (syncRootGo copyFails sec todo).1 = sec ++ todo := by
  induction todo with
  | nil => intro sec _; simp [syncRootGo]
  | cons f rest ih =>
    intro sec h
    rw [syncRootGo] at h ⊢
    by_cases hf : copyFails f
    · rw [if_pos hf] at h
      simp at h
    · rw [if_neg hf] at h ⊢
      replace h : (syncRootGo copyFails (sec ++ [f]) rest).2.1 = true := h
      show (syncRootGo copyFails (sec ++ [f]) rest).1 = sec ++ f :: rest
      rw [ih _ h]
      simp

/-- If one secondary root is processed without a copy failure, every file of
the primary root is present in it afterwards. -/
theorem syncRoot_ok_mem (copyFails : String → Bool) (primaryFiles sec : List String)
    (h : (syncRoot copyFails primaryFiles sec).2.1 = true) :
    ∀ f ∈ primaryFiles, f ∈ (syncRoot copyFails primaryFiles sec).1 := by
  intro f hf
  unfold syncRoot at h ⊢
  rw [syncRootGo_ok_append _ _ _ h]
  by_cases hs : f ∈ sec
  · exact List.mem_append_left _ hs
  · refine List.mem_append_right _ ?_
    rw [List.mem_filter]
    exact ⟨hf, by simpa using hs⟩

/-- If `synchronize_directories` finishes without a copy failure, every file
of the primary root is present in every resulting secondary root. -/
theorem synchronize_directories_ok_mem (copyFails : Nat → String → Bool)
    (primaryFiles : List String) :
    ∀ (secs : List (List String)) (i : Nat),
      (synchronize_directories copyFails primaryFiles i secs).2.1 = true →
      ∀ sec ∈ (synchronize_directories copyFails primaryFiles i secs).1,
        ∀ f ∈ primaryFiles, f ∈ sec := by
  intro secs
  induction secs with
  | nil =>
    intro i _ sec hsec
    simp [synchronize_directories] at hsec
  | cons s0 rest ih =>
    intro i h sec hsec f hf
    rw [synchronize_directories] at h hsec
    by_cases hr : (syncRoot (copyFails i) primaryFiles s0).2.1 = true
    · rw [if_pos hr] at h hsec
      replace h : (synchronize_directories copyFails primaryFiles (i + 1) rest).2.1 =
          true := h
      replace hsec : sec = (syncRoot (copyFails i) primaryFiles s0).1 ∨
          sec ∈ (synchronize_directories copyFails primaryFiles (i + 1) rest).1 := by
        simpa using hsec
      rcases hsec with rfl | hsec
      · exact syncRoot_ok_mem _ _ _ hr f hf
      · exact ih (i + 1) h sec hsec f hf
    · rw [if_neg hr] at h
      simp at h

/-- C8: if a pull completes successfully (returns `True`), then every
filename present in the primary root afterwards is present in every secondary
root afterwards. -/
theorem c8_mirror_convergence (connectOk : Bool) (lines : List String)
    (outcome : String → FileOutcome) (copyFails : Nat → String → Bool) (s : Sys)
    (h : (perform_backup_model connectOk lines outcome copyFails s).ret = .pyTrue) :
    ∀ sec ∈ (perform_backup_model connectOk lines outcome copyFails s).sys.secondaries,
      ∀ f ∈ (perform_backup_model connectOk lines outcome copyFails s).sys.primary.map
          Prod.fst, f ∈ sec := by
  cases connectOk with
  | false => simp [perform_backup_model] at h
  | true =>
    rcases hb : buildNewFiles (s.primary.map Prod.fst) lines with e | newFiles
    · simp [perform_backup_model, hb] at h
    · cases hnf : newFiles.isEmpty with
      | true => simp [perform_backup_model, hb, hnf] at h
      | false =>
        cases hint : (runFiles outcome s newFiles).2.2.2 with
        | true => simp [perform_backup_model, hb, hnf, hint] at h
        | false =>
          cases hsy : (synchronize_directories copyFails
              ((runFiles outcome s newFiles).1.primary.map Prod.fst) 0
              (runFiles outcome s newFiles).1.secondaries).2.1 with
          | false =>
            simp [perform_backup_model, hb, hnf, hint, hsy] at h
          | true =>
            intro sec hsec f hf
            simp only [perform_backup_model, hb, hnf, hint, hsy, Bool.not_true,
              Bool.false_eq_true, if_false] at hsec hf
            exact synchronize_directories_ok_mem copyFails _ _ 0 hsy sec hsec f hf

/-- C8 witness: the theorem applied to a concrete successful pull of one file
into a store with one (initially empty) secondary root. -/
theorem c8_mirror_convergence_witness :
    (perform_backup_model true (lsListing [⟨"x.bin", "10", "1000"⟩]) allOk noCopyFail
        ⟨[], [], [[]]⟩).ret = .pyTrue ∧ "x.bin" ∈ ["x.bin"] :=
  ⟨by decide,
    c8_mirror_convergence true (lsListing [⟨"x.bin", "10", "1000"⟩]) allOk noCopyFail
      ⟨[], [], [[]]⟩ (by decide) ["x.bin"] (by decide) "x.bin" (by decide)⟩

theorem lockFree_append (a b : List Event) :
    lockFree (a ++ b) = (lockFree a && lockFree b) := by
  induction a with
  | nil => rfl
  | cons e rest ih => cases e <;> simp [lockFree, ih]

theorem finalFlag_append (f : Bool) (a b : List Event) :
    finalFlag f (a ++ b) = finalFlag (finalFlag f a) b := by
  induction a generalizing f with
  | nil => rfl
  | cons e rest ih => cases e <;> simp [finalFlag, ih]

theorem finalFlag_of_lockFree (f : Bool) (a : List Event) (h : lockFree a = true) :
    finalFlag f a = f := by
  induction a with
  | nil => rfl
  | cons e rest ih =>
    cases e <;> simp_all [finalFlag, lockFree]

theorem flagHeld_append_of_lockFree (a b : List Event) (h : lockFree a = true) :
    flagHeldDuringTransfers true (a ++ b) = flagHeldDuringTransfers true b := by
  induction a with
  | nil => rfl
  | cons e rest ih =>
    cases e <;> simp_all [flagHeldDuringTransfers, lockFree]

/-- The events of the download loop never mention the transfer flag. -/
theorem runFiles_lockFree (outcome : String → FileOutcome) :
    ∀ (files : List (String × Int)) (s : Sys),
      lockFree (runFiles outcome s files).2.2.1 = true := by
  intro files
  induction files with
  | nil => intro s; rfl
  | cons e rest ih =>
    intro s
    rw [runFiles]
    by_cases hmem : sanitize_filename e.1 ∈ s.temp ∨
        sanitize_filename e.1 ∈ s.primary.map Prod.fst
    · rw [if_pos hmem]
      exact ih s
    · rw [if_neg hmem]
      rcases outcome (sanitize_filename e.1) with _ | _ | _ | _

      · simpa [lockFree] using ih _
      · simpa [lockFree] using ih _
      · simpa [lockFree] using ih _
      · rfl

/-- The events of one secondary root's copy loop never mention the flag. -/
theorem syncRootGo_lockFree (copyFails : String → Bool) :
    ∀ (todo sec : List String), lockFree (syncRootGo copyFails sec todo).2.2 = true := by
  intro todo
  induction todo with
  | nil => intro sec; rfl
  | cons f rest ih =>
    intro sec
    rw [syncRootGo]
    by_cases hf : copyFails f
    · rw [if_pos hf]; rfl
    · rw [if_neg hf]
      simpa [lockFree] using ih (sec ++ [f])

/-- The events of one secondary root never mention the flag. -/
theorem syncRoot_lockFree (copyFails : String → Bool) (primaryFiles sec : List String) :
    lockFree (syncRoot copyFails primaryFiles sec).2.2 = true :=
  syncRootGo_lockFree copyFails _ sec

/-- The events of `synchronize_directories` never mention the flag. -/
theorem synchronize_directories_lockFree (copyFails : Nat → String → Bool)
    (primaryFiles : List String) :
    ∀ (secs : List (List String)) (i : Nat),
      lockFree (synchronize_directories copyFails primaryFiles i secs).2.2 = true := by
  intro secs
  induction secs with
  | nil => intro i; rfl
  | cons s0 rest ih =>
    intro i
    rw [synchronize_directories]
    by_cases hr : (syncRoot (copyFails i) primaryFiles s0).2.1 = true
    · rw [if_pos hr]
      show lockFree (.fsTouch :: ((syncRoot (copyFails i) primaryFiles s0).2.2 ++
        (synchronize_directories copyFails primaryFiles (i + 1) rest).2.2)) = true
      simp [lockFree, lockFree_append, syncRoot_lockFree, ih (i + 1)]
    · rw [if_neg hr]
      show lockFree (.fsTouch :: (syncRoot (copyFails i) primaryFiles s0).2.2) = true
      simp [lockFree, syncRoot_lockFree]

/-- The events of the USB per-file loop never mention the flag. -/
theorem usbLoop_lockFree (copyFails : String → Bool) :
    ∀ (files dest : List String), lockFree (usbLoop copyFails dest files).2 = true := by
  intro files
  induction files with
  | nil => intro dest; rfl
  | cons f rest ih =>
    intro dest
    rw [usbLoop]
    by_cases hd : f ∈ dest
    · rw [if_pos hd]
      exact ih dest
    · rw [if_neg hd]
      by_cases hf : copyFails f
      · rw [if_pos hf]
        exact ih dest
      · rw [if_neg hf]
        simpa [lockFree] using ih (dest ++ [f])

/-- A lock-free block of events inside a trace changes neither the final
flag value nor (when the flag is held) the held-during-transfers check. -/
theorem finalFlag_body (f0 : Bool) (evs rest : List Event) (h : lockFree evs = true) :
    finalFlag f0 (evs ++ rest) = finalFlag f0 rest := by
  rw [finalFlag_append, finalFlag_of_lockFree _ _ h]

/-- C6 (amended): on every exit path of the two transfer operations — the
remote pull and the removable-media copy — the `active_transfer` flag ends
`false` (the `finally` blocks of lines 242 and 348), and every completed
transfer event happens while the flag is `true`.  The claim's further
assertion that the flag is set *before any filesystem touch* is false: both
operations touch the filesystem first (see the counterexample). -/
theorem c6_amended_lock_reset_and_held :
    (∀ (connectOk : Bool) (lines : List String) (outcome : String → FileOutcome)
        (copyFails : Nat → String → Bool) (s : Sys),
      finalFlag false (perform_backup_model connectOk lines outcome copyFails s).trace
          = false ∧
        flagHeldDuringTransfers false
          (perform_backup_model connectOk lines outcome copyFails s).trace = true) ∧
    (∀ (folderSelected createFolder : Bool) (copyFails : String → Bool)
        (backupFiles dest : List String),
      finalFlag false
          (copy_to_usb_model folderSelected createFolder copyFails backupFiles
            dest).trace = false ∧
        flagHeldDuringTransfers false
          (copy_to_usb_model folderSelected createFolder copyFails backupFiles
            dest).trace = true) := by
  constructor
  · intro connectOk lines outcome copyFails s
    cases connectOk with
    | false => exact ⟨rfl, rfl⟩
    | true =>
      rcases hb : buildNewFiles (s.primary.map Prod.fst) lines with e | newFiles
      · simp [perform_backup_model, hb, finalFlag, flagHeldDuringTransfers]
      · cases hnf : newFiles.isEmpty with
        | true => simp [perform_backup_model, hb, hnf, finalFlag, flagHeldDuringTransfers]
        | false =>
          have hev := runFiles_lockFree outcome newFiles s
          cases hint : (runFiles outcome s newFiles).2.2.2 with
          | true =>
            simp only [perform_backup_model, hb, hnf, hint, Bool.not_true,
              Bool.false_eq_true, if_false]
            constructor
            · simp only [List.append_eq, List.append_assoc, List.cons_append, List.nil_append,
                finalFlag]
              rw [finalFlag_body _ _ _ hev]
              rfl
            · simp only [List.append_eq, List.append_assoc, List.cons_append, List.nil_append,
                flagHeldDuringTransfers]
              rw [flagHeld_append_of_lockFree _ _ hev]
              rfl
          | false =>
            have hsev := synchronize_directories_lockFree copyFails
              ((runFiles outcome s newFiles).1.primary.map Prod.fst)
              (runFiles outcome s newFiles).1.secondaries 0
            simp only [perform_backup_model, hb, hnf, hint, Bool.not_true,
              Bool.false_eq_true, if_false]
            constructor
            · simp only [List.append_eq, List.append_assoc, List.cons_append, List.nil_append,
                finalFlag]
              rw [finalFlag_body _ _ _ hev]
              simp only [finalFlag]
              rw [finalFlag_body _ _ _ hsev]
              rfl
            · simp only [List.append_eq, List.append_assoc, List.cons_append, List.nil_append,
                flagHeldDuringTransfers]
              rw [flagHeld_append_of_lockFree _ _ hev]
              simp only [flagHeldDuringTransfers]
              rw [flagHeld_append_of_lockFree _ _ hsev]
              rfl
  · intro folderSelected createFolder copyFails backupFiles dest
    cases folderSelected with
    | false => exact ⟨rfl, rfl⟩
    | true =>
      have hev := usbLoop_lockFree copyFails backupFiles dest
      cases createFolder with
      | false =>
        simp only [copy_to_usb_model, Bool.not_true, Bool.false_eq_true, if_false]
        constructor
        · simp only [List.append_eq, List.append_assoc, List.cons_append, List.nil_append, finalFlag]
          rw [finalFlag_body _ _ _ hev]
          rfl
        · simp only [List.append_eq, List.append_assoc, List.cons_append, List.nil_append,
            flagHeldDuringTransfers]
          rw [flagHeld_append_of_lockFree _ _ hev]
          rfl
      | true =>
        simp only [copy_to_usb_model, Bool.not_true, Bool.false_eq_true, if_false]
        constructor
        · simp only [List.append_eq, List.append_assoc, List.cons_append, List.nil_append, finalFlag]
          rw [finalFlag_body _ _ _ hev]
          rfl
        · simp only [List.append_eq, List.append_assoc, List.cons_append, List.nil_append,
            flagHeldDuringTransfers]
          rw [flagHeld_append_of_lockFree _ _ hev]
          rfl

/-- C6 counterexample: this pull performs a transfer (one download), yet its
trace touches the filesystem (`create_backup_directories`, the listing of the
primary root, the creation of the staging directory — lines 155, 163, 182)
before `active_transfer` is first set (lines 185-187), refuting the claim
that every transfer-performing operation sets the flag before it touches the
filesystem. -/
theorem c6_counterexample :
    downloadCount c6run.trace = 1 ∧ noFsBeforeLock c6run.trace = false := by
  exact ⟨by decide, by decide⟩

/-- C4 (code bug): a failure while copying one file into a secondary root is
*not* contained.  The per-file handler of line 288 calls
`send_email("Backup Script Error", ...)` (line 290) with two arguments,
but `send_email(subject, body, config)` takes three, so the handler itself
raises a `TypeError` that aborts the remaining files of that root and all
remaining roots: with primary files `a.txt`, `b.txt`, two empty secondary
roots, and a failure on copying `a.txt` into root 0, both roots stay empty
(`b.txt` is never copied anywhere), and the enclosing pull reports `False`. -/
theorem c4_sync_failure_aborts :
    (synchronize_directories failFirstCopy ["a.txt", "b.txt"] 0 [[], []]).2.1 = false ∧
      (synchronize_directories failFirstCopy ["a.txt", "b.txt"] 0 [[], []]).1 =
        [[], []] ∧
      (perform_backup_model true
        (lsListing [⟨"a.txt", "10", "1000"⟩, ⟨"b.txt", "10", "999"⟩]) allOk
        failFirstCopy ⟨[], [], [[], []]⟩).ret = .pyFalse := by
  exact ⟨by decide, by decide, by decide⟩

/-- C7 (code bug): on the very first tick that detects any volume, the
membership test `current_usb not in usb_prompted` (line 370) runs on the
boolean `False` and raises a `TypeError`, killing the watcher thread; no
`TransferRequest` is ever enqueued — for no sequence of poll ticks, so in
particular never exactly once per attach as the claim states. -/
theorem c7_watcher_crashes_on_first_detection :
    ∀ (v : String) (rest : List (Option String)),
      (run_ticks initialWatcherState (some v :: rest)).2 = true ∧
        (run_ticks initialWatcherState (some v :: rest)).1.queue = [] := by
  intro v rest
  exact ⟨rfl, rfl⟩

/-- C9 counterexample: an interrupted pull returns `False` — the *same*
outcome a failed pull returns, not a distinct one — and the interruption
does not stop the remaining per-server work: in the two-server loop with the
first pull interrupted, the second server's pull still runs and downloads its
file. -/
theorem c9_counterexample :
    (runServer serverIntr).ret = .pyFalse ∧
      (runServer serverFail).ret = .pyFalse ∧
      main_first_pass [serverIntr, serverOk] =
        [runServer serverIntr, runServer serverOk] ∧
      (runServer serverOk).sys.primary = [("s2.bin", 1000)] := by
  exact ⟨by decide, by decide, by decide, by decide⟩

/-- C9 (amended): the pull reports one of `True` (completion), `None` (no
new files) and `False`, but `False` covers connection failure, unexpected
errors *and* interruption alike (the interruption is distinct only in its
log/notification text, not in the returned outcome), and an interrupted or
failed pull does not stop the remaining servers of the loop — only an
uncaught parse exception does. -/
theorem c9_amended_outcomes :
    (∀ (r : ServerInput) (rest : List ServerInput), (runServer r).ret ≠ .raised →
      main_first_pass (r :: rest) = runServer r :: main_first_pass rest) ∧
      (runServer serverOk).ret = .pyTrue ∧
      (perform_backup_model true (lsListing []) allOk noCopyFail sys0).ret = .pyNone ∧
      (runServer serverIntr).ret = .pyFalse ∧
      (runServer serverFail).ret = .pyFalse := by
  refine ⟨?_, by decide, by decide, by decide, by decide⟩
  intro r rest h
  rw [main_first_pass, if_neg h]

/-- C9 witness: the loop-continuation conjunct applied to a concrete
one-server list. -/
theorem c9_amended_outcomes_witness :
    (runServer serverOk).ret ≠ PyRet.raised ∧
      main_first_pass [serverOk] = [runServer serverOk] :=
  ⟨by decide, c9_amended_outcomes.1 serverOk [] (by decide)⟩

end AutoBackup
